import Mathlib

/-!
Shallow embedding of the `iced_gif` widget (src/src/widget/gif.rs): the
decoder front-end `Frames::from_bytes` and the playback state machine
implemented by `Widget::state`, `Widget::diff` and `Widget::on_event`.

Time is modelled as `Nat` nanosecond counts: Rust `Instant` and
`Duration` both become `Nat`.  Rust's `Instant::duration_since` is
saturating (it returns the zero duration when the other instant is
later), which truncated `Nat` subtraction models exactly.
-/

namespace IcedGif

/-- Monotonic-clock instants, as nanoseconds since an arbitrary origin. -/
abbrev Instant := Nat

/-- Time spans, as nanoseconds. -/
abbrev Duration := Nat

/-- Model of `Instant::duration_since`: the time elapsed from `earlier`
to `later`, or zero when `earlier` is actually the later one (Rust's
documented saturating behaviour). -/
def durationSince (later earlier : Instant) : Duration := later - earlier

/-- Model of an `iced` `image::Handle` as produced by
`Handle::from_rgba(width, height, bytes)` on line 133 of gif.rs. -/
structure Handle where
  width : Nat
  height : Nat
  rgba : List Nat
deriving DecidableEq, Inhabited

/-- Opaque model of `image_rs::ImageError`; only its identity matters. -/
structure ImageError where
  code : Nat
deriving DecidableEq

/-- Model of `enum Error` (gif.rs lines 26-34): there are exactly two
variants, a wrapped image decode error and a wrapped I/O error.  There
is no `Empty` variant. -/
inductive Error where
  | image (e : ImageError)
  | ioFail (code : Nat)
deriving DecidableEq

/-- Model of `struct Frame` (gif.rs lines 121-125): one decoded frame,
its display delay and its pixel handle. -/
structure Frame where
  delay : Duration
  handle : Handle
deriving DecidableEq, Inhabited

/-- Model of `struct Frames` (gif.rs lines 49-54): the decode output.
The `first` frame is stored separately from the `frames` vector, and
`total_bytes` is the identity proxy used by `diff`. -/
structure Frames where
  first : Frame
  frames : List Frame
  total_bytes : Nat
deriving DecidableEq

/-- Model of an `image_rs::Frame`: an RGBA buffer with its dimensions
and the per-frame delay (converted to a `Duration`). -/
structure RsFrame where
  width : Nat
  height : Nat
  delayNs : Duration
  buffer : List Nat
deriving DecidableEq

/-- Model of `impl From<image_rs::Frame> for Frame` (gif.rs lines
127-137): the delay is converted verbatim (`frame.delay().into()`), with
no minimum floor applied, and the handle is built from the frame's
dimensions and RGBA buffer. -/
def Frame.fromRs (f : RsFrame) : Frame :=
  { delay := f.delayNs
    handle := { width := f.width, height := f.height, rgba := f.buffer } }

/-- Model of what `gif::GifDecoder::new(Cursor::new(bytes))` exposes to
`from_bytes`: the length of the input byte buffer (recorded so that
claims about it can be stated; the code never reads it), the decoded
canvas dimensions taken from the header, and the stream of per-frame
decode results produced by `into_frames()`. -/
structure GifDecoder where
  byteLen : Nat
  width : Nat
  height : Nat
  frameResults : List (Except ImageError RsFrame)

/-- Model of `ImageDecoder::total_bytes` as implemented by `image_rs`
(the trait's default implementation): width times height of the DECODED
image times bytes per pixel; `GifDecoder` decodes to RGBA8, so 4 bytes
per pixel.  This is a function of the decoded dimensions, not of the
input byte length. -/
def GifDecoder.total_bytes (d : GifDecoder) : Nat :=
  d.width * d.height * 4

/-- Model of `.map(|result| result.map(Frame::from)).collect::<Result<Vec<_>, _>>()`
(gif.rs lines 105-109): convert every frame, aborting at the first
decode error — all-or-nothing collection. -/
def collectFrames : List (Except ImageError RsFrame) → Except ImageError (List Frame)
  | [] => Except.ok []
  | Except.error e :: _ => Except.error e
  | Except.ok f :: rest =>
      match collectFrames rest with
      | Except.error e => Except.error e
      | Except.ok fs => Except.ok (Frame.fromRs f :: fs)

/-- Possible outcomes of `Frames::from_bytes`, including the panic of
`frames.first().cloned().unwrap()` (gif.rs line 111) when the decoded
frame vector is empty. -/
inductive DecodeOutcome where
  | ok (fs : Frames)
  | err (e : Error)
  | panicked
deriving DecidableEq

/-- Whether a `DecodeOutcome` is a successful decode. -/
def DecodeOutcome.isOk : DecodeOutcome → Bool
  | DecodeOutcome.ok _ => true
  | _ => false

/-- The identity token (`total_bytes`) of a successful decode, zero
otherwise. -/
def DecodeOutcome.identityOf : DecodeOutcome → Nat
  | DecodeOutcome.ok fs => fs.total_bytes
  | _ => 0

/-- Model of `Frames::from_bytes` (gif.rs lines 100-118).  The argument
is the result of constructing the decoder from the input bytes; on
success `total_bytes` is queried, the frames are collected
all-or-nothing, and the first frame is extracted by an `unwrap()` that
panics when the vector is empty. -/
def from_bytes (input : Except ImageError GifDecoder) : DecodeOutcome :=
  match input with
  | Except.error e => DecodeOutcome.err (Error.image e)
  | Except.ok d =>
      match collectFrames d.frameResults with
      | Except.error e => DecodeOutcome.err (Error.image e)
      | Except.ok [] => DecodeOutcome.panicked
      | Except.ok (f :: rest) =>
          DecodeOutcome.ok { first := f, frames := f :: rest, total_bytes := d.total_bytes }

/-- Model of `struct Current` (gif.rs lines 145-148): the displayed
frame and the instant it started displaying. -/
structure Current where
  frame : Frame
  started : Instant
deriving DecidableEq

/-- Model of `impl From<Frame> for Current` (gif.rs lines 150-157):
`started` is set to `Instant::now()`.  Every use of this conversion in
the widget happens while handling a redraw stamped `now`, so the
ambient clock reading is passed explicitly as `now`. -/
def Current.fromFrame (now : Instant) (frame : Frame) : Current :=
  { started := now, frame := frame }

/-- Model of `struct State` (gif.rs lines 139-143): the per-viewer
playback cursor stored in the widget tree. -/
structure State where
  index : Nat
  current : Current
  total_bytes : Nat
deriving DecidableEq

/-- Model of `Widget::state` (gif.rs lines 239-245): the fresh cursor
built for a widget holding `frames`.  Of the `Gif` struct only the
`frames` field is read by the modelled operations, so it is passed
directly; the layout fields (width, height, content fit, filter method,
rotation, opacity) affect only layout and drawing. -/
def Gif.state (frames : Frames) (now : Instant) : State :=
  { index := 0
    current := Current.fromFrame now frames.first
    total_bytes := frames.total_bytes }

/-- Model of `Widget::diff` (gif.rs lines 247-262): reset the cursor to
the fresh state exactly when the stored `total_bytes` differs from the
bound `Frames`' `total_bytes`; otherwise leave it untouched. -/
def Gif.diff (frames : Frames) (now : Instant) (s : State) : State :=
  if s.total_bytes ≠ frames.total_bytes then
    { index := 0
      current := Current.fromFrame now frames.first
      total_bytes := frames.total_bytes }
  else s

/-- The event cases `on_event` distinguishes: a window
`RedrawRequested(now)` event versus any other event (every other event
falls through the `if let` unchanged). -/
inductive Event where
  | redrawRequested (now : Instant)
  | other (tag : Nat)
deriving DecidableEq

/-- Model of `iced` `event::Status`. -/
inductive Status where
  | ignored
  | captured
deriving DecidableEq

/-- Result of one `on_event` call: the updated cursor state, the redraw
request passed to the shell (`RedrawRequest::At`, if any), and the
returned event status. -/
structure EventResult where
  state : State
  redrawAt : Option Instant
  status : Status
deriving DecidableEq

/-- Model of `Widget::on_event` (gif.rs lines 281-311).  On a redraw
stamped `now`: compute the saturating elapsed time since the current
frame started; if it strictly exceeds the current frame's delay,
advance the index by one modulo the frame count, rebuild `current` from
the newly indexed frame (its `started` being the clock reading `now`),
and request a redraw one full new-frame delay after `now`; otherwise
leave the state alone and request a redraw when the remaining delay
runs out.  The vector indexing `frames[index]` is modelled by `getD`;
the index is in bounds whenever the frame vector is nonempty (proved
below).  Every other event leaves the state untouched and requests
nothing, and every call returns `Status.ignored`. -/
def on_event (frames : Frames) (s : State) (e : Event) : EventResult :=
  match e with
  | Event.redrawRequested now =>
      let elapsed := durationSince now s.current.started
      if s.current.frame.delay < elapsed then
        let index := (s.index + 1) % frames.frames.length
        let current := Current.fromFrame now (frames.frames.getD index default)
        { state := { index := index, current := current, total_bytes := s.total_bytes }
          redrawAt := some (now + current.frame.delay)
          status := Status.ignored }
      else
        let remaining := s.current.frame.delay - elapsed
        { state := s
          redrawAt := some (now + remaining)
          status := Status.ignored }
  | Event.other _ =>
      { state := s, redrawAt := none, status := Status.ignored }

/-- A single opaque RGBA pixel used by the concrete examples. -/
def pixel : List Nat := [0, 0, 0, 255]

/-- Concrete frame with a 100-unit delay. -/
def frameA : Frame := { delay := 100, handle := { width := 1, height := 1, rgba := pixel } }

/-- Second concrete frame with a 100-unit delay (distinct pixels). -/
def frameB : Frame := { delay := 100, handle := { width := 1, height := 1, rgba := [1, 1, 1, 255] } }

/-- Third concrete frame with a 100-unit delay (distinct pixels). -/
def frameC : Frame := { delay := 100, handle := { width := 1, height := 1, rgba := [2, 2, 2, 255] } }

/-- A three-frame `Frames` value, every frame lasting 100 units. -/
def fs3 : Frames := { first := frameA, frames := [frameA, frameB, frameC], total_bytes := 4 }

/-- A one-frame `Frames` value with a 100-unit delay. -/
def fs1 : Frames := { first := frameA, frames := [frameA], total_bytes := 4 }

/-- A one-frame `Frames` value with a different identity token. -/
def fsB : Frames := { first := frameB, frames := [frameB], total_bytes := 9 }

/-- Cursor at frame 0 of `fs3`, started at instant 0. -/
def s0 : State := { index := 0, current := { frame := frameA, started := 0 }, total_bytes := 4 }

/-- Cursor at frame 0 of `fs1`, started at instant 0. -/
def s0a : State := { index := 0, current := { frame := frameA, started := 0 }, total_bytes := 4 }

/-- Cursor whose current frame started at instant 100 (for the clock
regression example). -/
def sLate : State := { index := 0, current := { frame := frameA, started := 100 }, total_bytes := 4 }

/-- Source frame whose encoded delay is zero. -/
def rsZero : RsFrame := { width := 1, height := 1, delayNs := 0, buffer := pixel }

/-- Source frame with a 100-unit delay. -/
def rsA : RsFrame := { width := 1, height := 1, delayNs := 100, buffer := pixel }

/-- Decoder that yields zero frames. -/
def emptyDecoder : GifDecoder :=
  { byteLen := 5, width := 1, height := 1, frameResults := [] }

/-- Decoder with one zero-delay frame. -/
def dZero : GifDecoder :=
  { byteLen := 3, width := 1, height := 1, frameResults := [Except.ok rsZero] }

/-- Decoder over a 10-byte input with a 1-by-1 canvas. -/
def dW1 : GifDecoder :=
  { byteLen := 10, width := 1, height := 1, frameResults := [Except.ok rsA] }

/-- Decoder over a 10-byte input with a 2-by-1 canvas: same input
length as `dW1`, different decoded dimensions. -/
def dW2 : GifDecoder :=
  { byteLen := 10, width := 2, height := 1, frameResults := [Except.ok rsA] }

/-- Decoder over a 99-byte input with a 1-by-1 canvas: different input
length than `dW1`, same decoded dimensions. -/
def dW3 : GifDecoder :=
  { byteLen := 99, width := 1, height := 1, frameResults := [Except.ok rsA] }

/-- The `Frames` value that `from_bytes` produces from `dW1` (and from
`dW3`, whose differing byte length is never read). -/
def fsW1 : Frames :=
  { first := Frame.fromRs rsA, frames := [Frame.fromRs rsA], total_bytes := 4 }

/-- The `Frames` value that `from_bytes` produces from `dZero`. -/
def fsZ : Frames :=
  { first := Frame.fromRs rsZero, frames := [Frame.fromRs rsZero], total_bytes := 4 }

/-- Helper: a successful `from_bytes` records the decoder's
`total_bytes` (decoded width times height times 4) as the identity. -/
theorem from_bytes_total_bytes (d : GifDecoder) (fs : Frames)
    (h : from_bytes (Except.ok d) = DecodeOutcome.ok fs) :
    fs.total_bytes = d.width * d.height * 4 := by
  cases hc : collectFrames d.frameResults with
  | error e => simp [from_bytes, hc] at h
  | ok l =>
      cases l with
      | nil => simp [from_bytes, hc] at h
      | cons f rest =>
          simp only [from_bytes, hc, DecodeOutcome.ok.injEq] at h
          subst h
          rfl

/-- Helper: collecting a stream of successful frame results converts
each frame in order. -/
theorem collectFrames_map_ok (fsrc : List RsFrame) :
    collectFrames (List.map Except.ok fsrc) = Except.ok (List.map Frame.fromRs fsrc) := by
  induction fsrc with
  | nil => rfl
  | cons f rest ih => simp [collectFrames, ih]

/-- C1 counterexample: the claim predicts that one `advance` call
consumes every full frame duration in the elapsed gap.  With three
100-unit frames, cursor at index 0 started at 0 and a redraw at 250,
the claim predicts index `(0 + 250 / 100) % 3 = 2`; the code advances
only once, to index 1. -/
theorem c1_counterexample :
    ¬ ((on_event fs3 s0 (Event.redrawRequested 250)).state.index = (0 + 250 / 100) % 3) := by
  decide

/-- C1 (amended): a single `on_event` redraw call performs at most one
frame advance — exactly one when the saturating elapsed time strictly
exceeds the current frame's delay, none otherwise.  There is no
catch-up loop: an arbitrarily large elapsed gap still advances the
index by one modulo the frame count in a single call. -/
theorem c1_single_step (frames : Frames) (s : State) (now : Instant)
    (h : 1 ≤ frames.frames.length) :
    (on_event frames s (Event.redrawRequested now)).state.index =
      if s.current.frame.delay < durationSince now s.current.started
      then (s.index + 1) % frames.frames.length
      else s.index := by
  unfold on_event
  dsimp only
  split <;> rfl

/-- C1 witness: the single-step characterisation at the concrete
three-frame example, with a gap of two and a half frame durations. -/
theorem c1_single_step_witness :
    1 ≤ fs3.frames.length ∧
    (on_event fs3 s0 (Event.redrawRequested 250)).state.index =
      (if s0.current.frame.delay < durationSince 250 s0.current.started
       then (s0.index + 1) % fs3.frames.length
       else s0.index) :=
  ⟨by decide, c1_single_step fs3 s0 250 (by decide)⟩

/-- C2 counterexample: on a decoder that yields zero frames,
`from_bytes` panics (the `unwrap()` of `frames.first()` on line 111);
it does not return a `DecodeError::Empty` value — no such variant even
exists in `Error`. -/
theorem c2_counterexample :
    from_bytes (Except.ok emptyDecoder) = DecodeOutcome.panicked := by
  decide

/-- C2 (amended): for every decoder whose frame stream is empty,
`from_bytes` panics rather than returning an error value. -/
theorem c2_empty_panics (d : GifDecoder) (h : d.frameResults = []) :
    from_bytes (Except.ok d) = DecodeOutcome.panicked := by
  simp [from_bytes, h, collectFrames]

/-- C2 witness: the amended statement at the concrete empty decoder. -/
theorem c2_empty_panics_witness :
    emptyDecoder.frameResults = [] ∧
    from_bytes (Except.ok emptyDecoder) = DecodeOutcome.panicked :=
  ⟨rfl, c2_empty_panics emptyDecoder rfl⟩

/-- C3 counterexample: with one 100-unit frame started at 0 and a
redraw at 150, the claim's deadline `now + (duration - elapsed)` with
`elapsed` the leftover remainder 50 would be 200; the code advances,
resets `started` to 150 and schedules the redraw at 250 — the
remainder is discarded. -/
theorem c3_counterexample :
    ¬ ((on_event fs1 s0a (Event.redrawRequested 150)).redrawAt = some 200) := by
  decide

/-- C3 (amended): when no advance happens (and the clock did not
regress) the returned deadline is `display_started_at + delay`,
preserving the elapsed remainder; but when an advance happens the new
`started` is `now` and the deadline is `now` plus the new frame's full
delay — the leftover remainder is discarded rather than preserved. -/
theorem c3_deadline (frames : Frames) (s : State) (now : Instant)
    (h : s.current.started ≤ now) :
    (¬ s.current.frame.delay < durationSince now s.current.started →
      (on_event frames s (Event.redrawRequested now)).redrawAt =
        some (s.current.started + s.current.frame.delay)) ∧
    (s.current.frame.delay < durationSince now s.current.started →
      (on_event frames s (Event.redrawRequested now)).redrawAt =
        some (now + (on_event frames s (Event.redrawRequested now)).state.current.frame.delay) ∧
      (on_event frames s (Event.redrawRequested now)).state.current.started = now) := by
  unfold on_event durationSince
  dsimp only
  constructor
  · intro hno
    rw [if_neg hno]
    dsimp only
    have hrem : now - s.current.started ≤ s.current.frame.delay := Nat.le_of_not_lt hno
    simp only [Option.some.injEq]
    calc now + (s.current.frame.delay - (now - s.current.started))
        = s.current.started + (now - s.current.started)
            + (s.current.frame.delay - (now - s.current.started)) := by
          rw [Nat.add_sub_cancel' h]
      _ = s.current.started
            + ((now - s.current.started)
              + (s.current.frame.delay - (now - s.current.started))) := by
          rw [Nat.add_assoc]
      _ = s.current.started + s.current.frame.delay := by
          rw [Nat.add_sub_cancel' hrem]
  · intro hyes
    rw [if_pos hyes]
    exact ⟨rfl, rfl⟩

/-- C3 witness: the advance case of the deadline characterisation at
the concrete one-frame example with a redraw at 150. -/
theorem c3_deadline_witness :
    s0a.current.started ≤ 150 ∧
    (on_event fs1 s0a (Event.redrawRequested 150)).redrawAt =
      some (150 + (on_event fs1 s0a (Event.redrawRequested 150)).state.current.frame.delay) :=
  ⟨by decide, ((c3_deadline fs1 s0a 150 (by decide)).2 (by decide)).1⟩

/-- C4: with a nonempty frame vector, the cursor-index invariant
`index < length frames` holds in the freshly built state, is preserved
by `diff`, and is preserved by `on_event` for every event; hence the
modulo-wrapped vector access inside `on_event` stays in bounds. -/
theorem c4_index_invariant (frames : Frames) (s : State) (now : Instant) (e : Event)
    (h : 1 ≤ frames.frames.length) :
    (Gif.state frames now).index < frames.frames.length ∧
    (s.index < frames.frames.length → (Gif.diff frames now s).index < frames.frames.length) ∧
    (s.index < frames.frames.length → (on_event frames s e).state.index < frames.frames.length) := by
  refine ⟨h, ?_, ?_⟩
  · intro hs
    unfold Gif.diff
    split
    · exact h
    · exact hs
  · intro hs
    cases e with
    | other tag => exact hs
    | redrawRequested n =>
        unfold on_event
        dsimp only
        split
        · exact Nat.mod_lt _ (by omega)
        · exact hs

/-- C4 witness: the invariant statement at the concrete three-frame
example with a redraw at 250. -/
theorem c4_index_invariant_witness :
    1 ≤ fs3.frames.length ∧
    (Gif.state fs3 7).index < fs3.frames.length ∧
    (s0.index < fs3.frames.length →
      (Gif.diff fs3 7 s0).index < fs3.frames.length) ∧
    (s0.index < fs3.frames.length →
      (on_event fs3 s0 (Event.redrawRequested 250)).state.index < fs3.frames.length) :=
  ⟨by decide, c4_index_invariant fs3 s0 7 (Event.redrawRequested 250) (by decide)⟩

/-- C5: `diff` resets the cursor exactly when the stored identity
(`total_bytes`) differs from the bound `Frames`' identity — index to 0,
displayed frame to the stored first frame, `started` to the ambient
clock reading, identity to the new `Frames`' identity — and leaves the
state entirely unchanged when the identities agree; moreover for every
successfully decoded `Frames` the stored first frame is `frames[0]`. -/
theorem c5_diff_reset (frames : Frames) (s : State) (now : Instant)
    (d : GifDecoder) (fs : Frames) :
    (s.total_bytes ≠ frames.total_bytes →
      (Gif.diff frames now s).index = 0 ∧
      (Gif.diff frames now s).current.frame = frames.first ∧
      (Gif.diff frames now s).current.started = now ∧
      (Gif.diff frames now s).total_bytes = frames.total_bytes) ∧
    (s.total_bytes = frames.total_bytes → Gif.diff frames now s = s) ∧
    (from_bytes (Except.ok d) = DecodeOutcome.ok fs →
      fs.first = fs.frames.getD 0 default) := by
  refine ⟨?_, ?_, ?_⟩
  · intro hne
    unfold Gif.diff
    rw [if_pos hne]
    exact ⟨rfl, rfl, rfl, rfl⟩
  · intro heq
    unfold Gif.diff
    rw [if_neg (by simp [heq])]
  · intro hdec
    cases hc : collectFrames d.frameResults with
    | error e => simp [from_bytes, hc] at hdec
    | ok l =>
        cases l with
        | nil => simp [from_bytes, hc] at hdec
        | cons f rest =>
            simp only [from_bytes, hc, DecodeOutcome.ok.injEq] at hdec
            subst hdec
            rfl

/-- C5 witness: resetting on an identity mismatch at a concrete
example, and the decoded-first-frame fact at a concrete decoder. -/
theorem c5_diff_reset_witness :
    s0.total_bytes ≠ fsB.total_bytes ∧
    (Gif.diff fsB 7 s0).index = 0 ∧
    (from_bytes (Except.ok dW1) = DecodeOutcome.ok fsW1 →
      fsW1.first = fsW1.frames.getD 0 default) :=
  ⟨by decide, ((c5_diff_reset fsB s0 7 dW1 fsW1).1 (by decide)).1,
    (c5_diff_reset fsB s0 7 dW1 fsW1).2.2⟩

/-- C6: if the redraw timestamp precedes the current frame's start
instant, the saturating elapsed time is zero, so `on_event` leaves the
whole cursor state unchanged and still returns a deadline (one full
current-frame delay after `now`); being a total function it cannot
panic. -/
theorem c6_clock_regression (frames : Frames) (s : State) (now : Instant)
    (h : now < s.current.started) :
    on_event frames s (Event.redrawRequested now) =
      { state := s
        redrawAt := some (now + s.current.frame.delay)
        status := Status.ignored } := by
  have h0 : durationSince now s.current.started = 0 :=
    Nat.sub_eq_zero_of_le (Nat.le_of_lt h)
  unfold on_event
  simp [h0]

/-- C6 witness: a redraw at 50 against a frame started at 100 leaves
the state alone and schedules the redraw at 150. -/
theorem c6_clock_regression_witness :
    (50 : Instant) < sLate.current.started ∧
    on_event fs1 sLate (Event.redrawRequested 50) =
      { state := sLate
        redrawAt := some (50 + sLate.current.frame.delay)
        status := Status.ignored } :=
  ⟨by decide, c6_clock_regression fs1 sLate 50 (by decide)⟩

/-- C7 counterexample: a source frame with an encoded delay of zero
converts to a `Frame` whose duration is zero — no positive minimum
floor is applied anywhere in the conversion. -/
theorem c7_counterexample : ¬ (0 < (Frame.fromRs rsZero).delay) := by
  decide

/-- C7 (amended): decoding applies no duration floor at all — a
successful `from_bytes` yields exactly the source frames in order with
each duration equal to the source frame's encoded delay verbatim (in
particular a zero encoded delay stays zero). -/
theorem c7_no_floor (d : GifDecoder) (fsrc : List RsFrame) (frs : Frames)
    (hsrc : d.frameResults = List.map Except.ok fsrc)
    (h : from_bytes (Except.ok d) = DecodeOutcome.ok frs) :
    frs.frames.map Frame.delay = fsrc.map RsFrame.delayNs := by
  have hc : collectFrames d.frameResults = Except.ok (List.map Frame.fromRs fsrc) := by
    rw [hsrc]; exact collectFrames_map_ok fsrc
  cases fsrc with
  | nil => simp [from_bytes, hc] at h
  | cons f rest =>
      have hfr : frs.frames = List.map Frame.fromRs (f :: rest) := by
        simp only [List.map] at hc
        simp only [from_bytes, hc, DecodeOutcome.ok.injEq] at h
        subst h
        rfl
      rw [hfr, List.map_map]
      rfl

/-- C7 witness: the verbatim-delay statement at the concrete decoder
holding a single zero-delay frame. -/
theorem c7_no_floor_witness :
    dZero.frameResults = List.map Except.ok [rsZero] ∧
    from_bytes (Except.ok dZero) = DecodeOutcome.ok fsZ ∧
    fsZ.frames.map Frame.delay = [rsZero].map RsFrame.delayNs :=
  ⟨rfl, by decide, c7_no_floor dZero [rsZero] fsZ rfl (by decide)⟩

/-- C8: with a nonempty frame vector, calling `on_event` twice with the
same redraw timestamp is idempotent — the second call returns exactly
the first call's result, so the state is unchanged and the same
deadline is returned. -/
theorem c8_idempotent (frames : Frames) (s : State) (now : Instant)
    (h : 1 ≤ frames.frames.length) :
    on_event frames (on_event frames s (Event.redrawRequested now)).state
        (Event.redrawRequested now) =
      on_event frames s (Event.redrawRequested now) := by
  unfold on_event durationSince
  dsimp only
  split
  · simp [Current.fromFrame, Nat.sub_self]
  · rfl

/-- C8 witness: idempotence at the concrete three-frame example with a
redraw at 250. -/
theorem c8_idempotent_witness :
    1 ≤ fs3.frames.length ∧
    on_event fs3 (on_event fs3 s0 (Event.redrawRequested 250)).state
        (Event.redrawRequested 250) =
      on_event fs3 s0 (Event.redrawRequested 250) :=
  ⟨by decide, c8_idempotent fs3 s0 250 (by decide)⟩

/-- C9 counterexample: two inputs of equal byte length (10) whose
decoded canvases differ (1-by-1 versus 2-by-1) both decode successfully
but get different identity tokens (4 versus 8) — the identity is not a
function of the input byte length. -/
theorem c9_counterexample :
    dW1.byteLen = dW2.byteLen ∧
    (from_bytes (Except.ok dW1)).isOk = true ∧
    (from_bytes (Except.ok dW2)).isOk = true ∧
    (from_bytes (Except.ok dW1)).identityOf ≠ (from_bytes (Except.ok dW2)).identityOf := by
  refine ⟨rfl, by decide, by decide, by decide⟩

/-- C9 (amended): the identity token of a successful decode is a
deterministic function of the decoded canvas dimensions alone (width
times height times 4 bytes per pixel) — any two successfully decoded
inputs with equal decoded dimensions get equal identity tokens,
whatever their byte lengths. -/
theorem c9_identity_from_dimensions (d₁ d₂ : GifDecoder) (f₁ f₂ : Frames)
    (h₁ : from_bytes (Except.ok d₁) = DecodeOutcome.ok f₁)
    (h₂ : from_bytes (Except.ok d₂) = DecodeOutcome.ok f₂)
    (hw : d₁.width = d₂.width) (hh : d₁.height = d₂.height) :
    f₁.total_bytes = f₂.total_bytes := by
  rw [from_bytes_total_bytes d₁ f₁ h₁, from_bytes_total_bytes d₂ f₂ h₂, hw, hh]

/-- C9 witness: decoders over a 10-byte and a 99-byte input with the
same decoded dimensions get the same identity token. -/
theorem c9_identity_witness :
    from_bytes (Except.ok dW1) = DecodeOutcome.ok fsW1 ∧
    from_bytes (Except.ok dW3) = DecodeOutcome.ok fsW1 ∧
    dW1.width = dW3.width ∧ dW1.height = dW3.height ∧
    fsW1.total_bytes = fsW1.total_bytes :=
  ⟨by decide, by decide, rfl, rfl,
    c9_identity_from_dimensions dW1 dW3 fsW1 fsW1 (by decide) (by decide) rfl rfl⟩

/-- C10: every event other than a window redraw leaves the cursor state
completely unchanged and requests no redraw, and every event — redraw
included — is answered with `Status.ignored`, never consumed. -/
theorem c10_events (frames : Frames) (s : State) :
    (∀ tag : Nat, on_event frames s (Event.other tag) =
      { state := s, redrawAt := none, status := Status.ignored }) ∧
    (∀ e : Event, (on_event frames s e).status = Status.ignored) := by
  constructor
  · intro tag
    rfl
  · intro e
    cases e with
    | redrawRequested n =>
        unfold on_event
        dsimp only
        split <;> rfl
    | other tag => rfl

end IcedGif
